import Mathlib

/-!
Verification of the credential-scoped client registry and dial-delegation
core of `proxy/proxy/dial.go` (package `proxy` of lingkio/cloudsql-proxy).

The Go source is shallowly embedded: the process-wide `dialClient` struct
becomes an explicit state value threaded through the operations; Go maps
become association lists with last-write-wins insert; the external
collaborators (Google identity provider, certificate source constructor,
the Client-level dial) become fields of an `Env` record; a Go panic
(assignment to an entry of a nil map) becomes `Option.none`; and each
operation additionally has an event-trace function recording, in source
order, lock acquisitions, map operations and collaborator calls, used for
the lock-discipline claims.
-/

set_option autoImplicit false

namespace CloudSQLProxy

/-- Opaque handle standing for a Go `*http.Client` produced by the identity
provider collaborator. -/
abbrev HttpClient := Nat

/-- Opaque handle standing for a `*proxy.ConnSet`. -/
abbrev ConnSet := Nat

/-- Opaque handle standing for a custom `Dialer` function value. -/
abbrev DialerHandle := Nat

/-- Opaque handle standing for a `net.Conn`. -/
abbrev Conn := Nat

/-- Opaque handle standing for a `*jwt.Config` returned by
`google.JWTConfigFromJSON`. -/
abbrev JWTCfg := Nat

/-- Go `error` values, modelled by their message strings (the only thing
`fmt.Errorf` with the `%v` verb observes about them). -/
abbrev Err := String

/-- Go constant: `const port = 3307` in dial.go. -/
def port : Nat := 3307

/-- The fixed well-known endpoint passed to `certs.NewCertSource` in `Init`. -/
def sqlAdminEndpoint : String := "https://www.googleapis.com/sql/v1beta4/"

/-- The fixed OAuth scope used by `InitDefault` and `InitFromJson`. -/
def sqlScope : String := "https://www.googleapis.com/auth/sqlservice.admin"

/-- A `certs.CertSource` interface value held by a Client: either the result
of the `certs.NewCertSource(endpoint, auth, secure)` constructor (as built by
`Init`), or an arbitrary caller-supplied source (possible through
`InitClient`). -/
inductive CertSource where
  | newCertSource (endpoint : String) (auth : HttpClient) (secure : Bool)
  | custom (id : Nat)
deriving DecidableEq, Repr

/-- The fields of `proxy.Client` that dial.go sets: `Port`, `Certs`, `Conns`,
`Dialer`. Go interface and pointer fields may be nil, hence `Option`. -/
structure Client where
  Port : Nat
  Certs : Option CertSource
  Conns : Option ConnSet
  Dialer : Option DialerHandle
deriving DecidableEq, Repr

/-- A Go `map[string]*Client`, as an association list without duplicate keys
observable through lookup; insertion is last-write-wins on the key. -/
abbrev GoMap := List (String × Client)

/-- Go map write `m[k] = v`: replace the entry for `k` if present, else
append it. -/
def goMapInsert (m : GoMap) (k : String) (v : Client) : GoMap :=
  match m with
  | [] => [(k, v)]
  | (k0, v0) :: rest =>
      if k0 = k then (k, v) :: rest else (k0, v0) :: goMapInsert rest k v

/-- Go map read `m[k]`, `none` standing for the nil `*Client` returned
on a missing key. -/
def goMapLookup (m : GoMap) (k : String) : Option Client :=
  match m with
  | [] => none
  | (k0, v0) :: rest => if k0 = k then some v0 else goMapLookup rest k

/-- The process-wide `dialClient` struct: `c map[string]*Client` is nil until
lazily allocated, hence `Option GoMap`; the mutex is represented by the
event traces, not by the state. -/
structure DialClientState where
  c : Option GoMap
deriving DecidableEq

/-- The fresh process state: `dialClient.c == nil`. -/
def freshState : DialClientState := ⟨none⟩

/-- View of the map used by lookups; a nil map reads as empty in Go. -/
def mapOf (st : DialClientState) : GoMap := st.c.getD []

/-- Registry lookup as seen through the state (a locked read in the code). -/
def lookupSt (st : DialClientState) (k : String) : Option Client :=
  goMapLookup (mapOf st) k

/-- The `if dialClient.c == nil { dialClient.c = make(...) }` step. -/
def allocState (st : DialClientState) : DialClientState :=
  ⟨some (mapOf st)⟩

/-- The external collaborators of dial.go, one field per called function:
`google.DefaultClient(ctx, scope)`, `google.JWTConfigFromJSON(blob, scope)`,
`cfg.Client(ctx)` and the Client-level `(*Client).Dial(instance)`. Each is a
pure function of its visible arguments. -/
structure Env where
  defaultClient : String → Except Err HttpClient
  jwtConfigFromJSON : String → String → Except Err JWTCfg
  cfgClient : JWTCfg → HttpClient
  clientDial : Client → String → Except Err Conn

/-- Go `func Init(auth, connset, dialer, credential_json)`: allocate the map if
nil, then install a freshly built Client (fixed port, cert source against the
fixed endpoint, pass-through connset and dialer) under `credential_json`. -/
def Init (auth : HttpClient) (connset : Option ConnSet) (dialer : Option DialerHandle)
    (credential_json : String) (st : DialClientState) : DialClientState :=
  ⟨some (goMapInsert (mapOf st) credential_json
    { Port := port
      Certs := some (CertSource.newCertSource sqlAdminEndpoint auth true)
      Conns := connset
      Dialer := dialer })⟩

/-- Go `func InitClient(c, credential_json)`: assigns into `dialClient.c`
WITHOUT the nil-map allocation the other paths perform; on a fresh registry
the Go assignment to a nil map panics, modelled as `none`. -/
def InitClient (cl : Client) (credential_json : String) (st : DialClientState) :
    Option DialClientState :=
  match st.c with
  | none => none
  | some m => some ⟨some (goMapInsert m credential_json cl)⟩

/-- Go `func InitDefault(ctx)`: ambient-identity exchange via
`google.DefaultClient`, then `Init(cl, nil, nil, "")`; provider errors are
returned unchanged. -/
def InitDefault (env : Env) (st : DialClientState) :
    Except Err Unit × DialClientState :=
  match env.defaultClient sqlScope with
  | .error e => (.error e, st)
  | .ok cl => (.ok (), Init cl none none "" st)

/-- Go `func InitFromJson(ctx, credential_json)`: parse the blob with
`google.JWTConfigFromJSON`, derive a client via `cfg.Client(ctx)`, then
`Init(client, nil, nil, credential_json)`; parse errors are returned
unchanged. -/
def InitFromJson (env : Env) (credential_json : String) (st : DialClientState) :
    Except Err Unit × DialClientState :=
  match env.jwtConfigFromJSON credential_json sqlScope with
  | .error e => (.error e, st)
  | .ok cfg => (.ok (), Init (env.cfgClient cfg) none none credential_json st)

/-- The wrapped error `Dial` builds when the implicit `InitFromJson` call
fails: `fmt.Errorf("default proxy initialization failed; consider calling
proxy.Init explicitly: %v", err)`. -/
def initFailMsg (e : Err) : Err :=
  "default proxy initialization failed; consider calling proxy.Init explicitly: " ++ e

/-- Result of `func Dial`: a connection, an error, or the nil-pointer
dereference that would occur if the re-lookup after a successful implicit
init still returned nil. -/
inductive DialOutcome where
  | ok (conn : Conn)
  | err (e : Err)
  | panicNilClient
deriving DecidableEq, Repr

/-- Go `func Dial(instance, credential_json)`: locked lazy-alloc and lookup;
on miss, `InitFromJson` (wrapping its error on failure) then a locked
re-lookup; finally delegate to the resolved Client's own Dial, propagating
its error unchanged. -/
def Dial (env : Env) (inst : String) (credential_json : String)
    (st : DialClientState) : DialOutcome × DialClientState :=
  let st1 := allocState st
  match goMapLookup (mapOf st1) credential_json with
  | some c =>
      match env.clientDial c inst with
      | .ok conn => (.ok conn, st1)
      | .error e => (.err e, st1)
  | none =>
      match InitFromJson env credential_json st1 with
      | (.error e, st2) => (.err (initFailMsg e), st2)
      | (.ok _, st2) =>
          match goMapLookup (mapOf st2) credential_json with
          | none => (.panicNilClient, st2)
          | some c =>
              match env.clientDial c inst with
              | .ok conn => (.ok conn, st2)
              | .error e => (.err e, st2)

/-- Events of an operation, in source order: mutex operations, registry-map
operations, and the individual collaborator calls of dial.go. -/
inductive Event where
  | lock
  | unlock
  | mapAlloc
  | mapRead
  | mapWrite
  | callDefaultClient
  | callJWTConfigFromJSON
  | callCfgClient
  | callNewCertSource
  | callClientDial
deriving DecidableEq, Repr

/-- Collaborator calls (anything that is not a mutex or map operation). -/
def Event.isCollab : Event → Bool
  | .callDefaultClient => true
  | .callJWTConfigFromJSON => true
  | .callCfgClient => true
  | .callNewCertSource => true
  | .callClientDial => true
  | _ => false

/-- Identity-provider exchange and Client-level dial calls (the collaborator
calls other than the certificate-source constructor). -/
def Event.isExchangeOrDial : Event → Bool
  | .callDefaultClient => true
  | .callJWTConfigFromJSON => true
  | .callCfgClient => true
  | .callClientDial => true
  | _ => false

/-- Identity-provider exchange calls only. -/
def Event.isIdentityExchange : Event → Bool
  | .callDefaultClient => true
  | .callJWTConfigFromJSON => true
  | .callCfgClient => true
  | _ => false

/-- Trace of `Init`: the lock is taken, the map lazily allocated, and the
Client composite literal — including the `certs.NewCertSource` call — is
evaluated and written while the lock is held. -/
def InitTrace (st : DialClientState) : List Event :=
  [Event.lock] ++ (if st.c.isNone then [Event.mapAlloc] else [])
    ++ [Event.callNewCertSource, Event.mapWrite, Event.unlock]

/-- Trace of `InitClient`: on a nil map the assignment panics while the lock
is held (no write, no unlock); otherwise lock, write, unlock. -/
def InitClientTrace (st : DialClientState) : List Event :=
  match st.c with
  | none => [Event.lock]
  | some _ => [Event.lock, Event.mapWrite, Event.unlock]

/-- Trace of `InitDefault`: the ambient exchange happens before any lock;
on success `Init` runs on the same state. -/
def InitDefaultTrace (env : Env) (st : DialClientState) : List Event :=
  Event.callDefaultClient ::
    (match env.defaultClient sqlScope with
     | .error _ => []
     | .ok _ => InitTrace st)

/-- Trace of `InitFromJson`: parse, then on success `cfg.Client` and `Init`,
all of the identity work before any lock. -/
def InitFromJsonTrace (env : Env) (credential_json : String)
    (st : DialClientState) : List Event :=
  Event.callJWTConfigFromJSON ::
    (match env.jwtConfigFromJSON credential_json sqlScope with
     | .error _ => []
     | .ok _ => Event.callCfgClient :: InitTrace st)

/-- Trace of `Dial`: locked alloc-and-read; on a miss the whole
`InitFromJson` trace (outside the lock), then on success a locked re-read
and the delegated Client dial. -/
def DialTrace (env : Env) (credential_json : String)
    (st : DialClientState) : List Event :=
  let st1 := allocState st
  let pre := [Event.lock] ++ (if st.c.isNone then [Event.mapAlloc] else [])
    ++ [Event.mapRead, Event.unlock]
  match goMapLookup (mapOf st1) credential_json with
  | some _ => pre ++ [Event.callClientDial]
  | none =>
      match InitFromJson env credential_json st1 with
      | (.error _, _) => pre ++ InitFromJsonTrace env credential_json st1
      | (.ok _, st2) =>
          pre ++ InitFromJsonTrace env credential_json st1
            ++ [Event.lock, Event.mapRead, Event.unlock]
            ++ (match goMapLookup (mapOf st2) credential_json with
                | none => []
                | some _ => [Event.callClientDial])

/-- Scan a trace checking the lock discipline the spec states: while the
lock is held, only the map allocation and at most one single map read or
write may occur, and no collaborator call of any kind. `held` is whether
the lock is currently held, `n` how many map reads/writes occurred in the
current critical section. -/
def checkSpecSections : List Event → Bool → Nat → Bool
  | [], _, _ => true
  | Event.lock :: es, _, _ => checkSpecSections es true 0
  | Event.unlock :: es, _, _ => checkSpecSections es false 0
  | Event.mapAlloc :: es, held, n => checkSpecSections es held n
  | Event.mapRead :: es, held, n =>
      if held then n = 0 && checkSpecSections es held (n + 1)
      else checkSpecSections es held n
  | Event.mapWrite :: es, held, n =>
      if held then n = 0 && checkSpecSections es held (n + 1)
      else checkSpecSections es held n
  | e :: es, held, n =>
      if e.isCollab && held then false else checkSpecSections es held n

/-- The spec's lock-discipline predicate over a whole operation trace. -/
def lockDisciplineSpec (t : List Event) : Bool :=
  checkSpecSections t false 0

/-- The discipline the code actually follows: as `lockDisciplineSpec`,
except that the certificate-source constructor call is permitted inside a
critical section (identity exchange and the Client-level dial still are
not). -/
def checkCodeSections : List Event → Bool → Nat → Bool
  | [], _, _ => true
  | Event.lock :: es, _, _ => checkCodeSections es true 0
  | Event.unlock :: es, _, _ => checkCodeSections es false 0
  | Event.mapAlloc :: es, held, n => checkCodeSections es held n
  | Event.mapRead :: es, held, n =>
      if held then n = 0 && checkCodeSections es held (n + 1)
      else checkCodeSections es held n
  | Event.mapWrite :: es, held, n =>
      if held then n = 0 && checkCodeSections es held (n + 1)
      else checkCodeSections es held n
  | Event.callNewCertSource :: es, held, n => checkCodeSections es held n
  | e :: es, held, n =>
      if e.isCollab && held then false else checkCodeSections es held n

/-- Lock discipline as amended: identity exchange and delegated dial outside
the lock; critical sections hold at most the lazy allocation, one map
read/write, and (in the Init path) the certificate-source construction. -/
def lockDisciplineCode (t : List Event) : Bool :=
  checkCodeSections t false 0

/-- One invocation of an operation of the core, with all its inputs. -/
inductive Op where
  | dial (env : Env) (inst : String) (credential_json : String)
  | init (auth : HttpClient) (connset : Option ConnSet)
      (dialer : Option DialerHandle) (credential_json : String)
  | initClient (cl : Client) (credential_json : String)
  | initDefault (env : Env)
  | initFromJson (env : Env) (credential_json : String)

/-- The state transition of one operation; a panicking `InitClient` crashes
the process with the registry map untouched. -/
def applyOp (op : Op) (st : DialClientState) : DialClientState :=
  match op with
  | .dial env inst credential_json => (Dial env inst credential_json st).2
  | .init auth connset dialer credential_json =>
      Init auth connset dialer credential_json st
  | .initClient cl credential_json =>
      match InitClient cl credential_json st with
      | none => st
      | some st2 => st2
  | .initDefault env => (InitDefault env st).2
  | .initFromJson env credential_json => (InitFromJson env credential_json st).2

/-- Run a sequence of operations left to right. -/
def applyOps (ops : List Op) (st : DialClientState) : DialClientState :=
  ops.foldl (fun s op => applyOp op s) st

/-- The event trace of one operation. -/
def opTrace (op : Op) (st : DialClientState) : List Event :=
  match op with
  | .dial env _ credential_json => DialTrace env credential_json st
  | .init _ _ _ _ => InitTrace st
  | .initClient _ _ => InitClientTrace st
  | .initDefault env => InitDefaultTrace env st
  | .initFromJson env credential_json => InitFromJsonTrace env credential_json st

/-- A concrete environment for counterexamples and witnesses: the ambient
exchange succeeds, but parsing the empty credential blob fails the way
`google.JWTConfigFromJSON` does on empty input; other blobs parse. -/
def envAmbientOk : Env :=
  { defaultClient := fun _ => .ok 7
    jwtConfigFromJSON := fun blob _ =>
      if blob = "" then .error "unexpected end of JSON input" else .ok 1
    cfgClient := fun _ => 5
    clientDial := fun _ _ => .ok 9 }

/-- A concrete environment whose identity exchanges all fail. -/
def envAllFail : Env :=
  { defaultClient := fun _ => .error "no ambient credentials"
    jwtConfigFromJSON := fun _ _ => .error "bad blob"
    cfgClient := fun _ => 5
    clientDial := fun _ _ => .error "dial refused" }

/-- A concrete caller-supplied Client, as might be passed to `InitClient`. -/
def client0 : Client :=
  { Port := 1234, Certs := some (CertSource.custom 3), Conns := none, Dialer := none }

/-- No operation trace contains an identity-exchange collaborator call, as a
decidable whole-trace check. -/
def noIdentityExchange (t : List Event) : Bool :=
  t.all (fun e => !e.isIdentityExchange)

/-- A state in which the key "k1" was explicitly installed by `Init`. -/
def stWithK1 : DialClientState := Init 7 none none "k1" freshState

/-- The Client that `Init 7 none none "k1"` installs. -/
def builtK1 : Client :=
  { Port := port
    Certs := some (CertSource.newCertSource sqlAdminEndpoint 7 true)
    Conns := none
    Dialer := none }

theorem goMapLookup_goMapInsert (m : GoMap) (k q : String) (v : Client) :
    goMapLookup (goMapInsert m k v) q = if k = q then some v else goMapLookup m q := by
  induction m with
  | nil => simp [goMapInsert, goMapLookup]
  | cons hd tl ih =>
      obtain ⟨k0, v0⟩ := hd
      by_cases h0 : k0 = k
      · subst h0
        by_cases hq : k0 = q <;> simp [goMapInsert, goMapLookup, hq]
      · by_cases hq : k0 = q
        · subst hq
          have : ¬ k = k0 := fun h => h0 h.symm
          simp [goMapInsert, goMapLookup, h0, this]
        · simp [goMapInsert, goMapLookup, h0, hq, ih]

theorem lookupSt_allocState (st : DialClientState) (q : String) :
    lookupSt (allocState st) q = lookupSt st q := rfl

theorem lookupSt_Init (auth : HttpClient) (connset : Option ConnSet)
    (dialer : Option DialerHandle) (k : String) (st : DialClientState) (q : String) :
    lookupSt (Init auth connset dialer k st) q =
      if k = q then
        some { Port := port
               Certs := some (CertSource.newCertSource sqlAdminEndpoint auth true)
               Conns := connset
               Dialer := dialer }
      else lookupSt st q := by
  simp [lookupSt, Init, mapOf, goMapLookup_goMapInsert]

theorem lookupSt_InitFromJson_ok (env : Env) (k : String) (st st2 : DialClientState)
    (h : InitFromJson env k st = (.ok (), st2)) :
    (lookupSt st2 k).isSome := by
  unfold InitFromJson at h
  rcases hj : env.jwtConfigFromJSON k sqlScope with e | cfg <;> rw [hj] at h <;> simp at h
  rw [← h, lookupSt_Init]
  simp

theorem lookupSt_applyOp_isSome (op : Op) (st : DialClientState) (q : String)
    (h : (lookupSt st q).isSome) : (lookupSt (applyOp op st) q).isSome := by
  cases op with
  | init auth connset dialer k =>
      rw [applyOp, lookupSt_Init]
      by_cases hk : k = q <;> simp [hk, h]
  | initClient cl k =>
      rw [applyOp]
      rcases hc : st.c with _ | m
      · simp [InitClient, hc, h]
      · simp only [InitClient, hc]
        rw [show lookupSt ⟨some (goMapInsert m k cl)⟩ q =
              goMapLookup (goMapInsert m k cl) q from rfl, goMapLookup_goMapInsert]
        by_cases hk : k = q
        · simp [hk]
        · simpa [hk, lookupSt, mapOf, hc] using h
  | initDefault env =>
      rw [applyOp]
      unfold InitDefault
      rcases env.defaultClient sqlScope with e | cl
      · exact h
      · rw [lookupSt_Init]
        by_cases hk : ("" : String) = q <;> simp [hk, h]
  | initFromJson env k =>
      rw [applyOp]
      unfold InitFromJson
      rcases env.jwtConfigFromJSON k sqlScope with e | cfg
      · exact h
      · rw [lookupSt_Init]
        by_cases hk : k = q <;> simp [hk, h]
  | dial env inst k =>
      rw [applyOp]
      unfold Dial
      rcases hl : goMapLookup (mapOf (allocState st)) k with _ | c
      · simp only [hl]
        rcases hj : InitFromJson env k (allocState st) with ⟨r | u, st2⟩
        · have hst : st2 = allocState st := by
            unfold InitFromJson at hj
            rcases hjj : env.jwtConfigFromJSON k sqlScope with e | cfg <;>
              rw [hjj] at hj <;> simp at hj
            exact hj.2.symm
          simp only [hj]
          simpa [hst, lookupSt_allocState] using h
        · have hst2 : (lookupSt st2 q).isSome := by
            unfold InitFromJson at hj
            rcases hjj : env.jwtConfigFromJSON k sqlScope with e | cfg <;>
              rw [hjj] at hj <;> simp at hj
            rw [← hj, lookupSt_Init]
            by_cases hk : k = q <;> simp [hk, lookupSt_allocState, h]
          simp only [hj]
          rcases hl2 : goMapLookup (mapOf st2) k with _ | c2 <;> simp only [hl2]
          · exact hst2
          · rcases hd : env.clientDial c2 inst with e | conn <;> simp only [hd] <;>
              exact hst2
      · simp only [hl]
        rcases hd : env.clientDial c inst with e | conn <;> simp only [hd] <;>
          simpa [lookupSt_allocState] using h

theorem Init_one_entry (auth : HttpClient) (connset : Option ConnSet)
    (dialer : Option DialerHandle) (k : String) (st : DialClientState) :
    lookupSt (Init auth connset dialer k st) k =
      some { Port := port
             Certs := some (CertSource.newCertSource sqlAdminEndpoint auth true)
             Conns := connset
             Dialer := dialer } ∧
    ∀ q, q ≠ k → lookupSt (Init auth connset dialer k st) q = lookupSt st q := by
  constructor
  · rw [lookupSt_Init, if_pos rfl]
  · intro q hq
    rw [lookupSt_Init, if_neg (fun hkq => hq hkq.symm)]

theorem Dial_state_shape (env : Env) (inst k : String) (st : DialClientState) :
    (Dial env inst k st).2 = allocState st ∨
    ∃ cfg, env.jwtConfigFromJSON k sqlScope = Except.ok cfg ∧
      (Dial env inst k st).2 = Init (env.cfgClient cfg) none none k (allocState st) := by
  unfold Dial
  rcases hl : goMapLookup (mapOf (allocState st)) k with _ | c
  · simp only [hl]
    rcases hjj : env.jwtConfigFromJSON k sqlScope with e | cfg
    · have herr : InitFromJson env k (allocState st) = (Except.error e, allocState st) := by
        unfold InitFromJson; rw [hjj]
      left
      simp only [herr]
    · have hok : InitFromJson env k (allocState st) =
          (Except.ok (), Init (env.cfgClient cfg) none none k (allocState st)) := by
        unfold InitFromJson; rw [hjj]
      right
      refine ⟨cfg, rfl, ?_⟩
      simp only [hok]
      split
      · rfl
      · split <;> rfl
  · simp only [hl]
    left
    rcases env.clientDial c inst with e | conn <;> rfl

/-- Claim C1: the spec (and the Go function's own doc comment, which says
"If one of the Init functions hasn't been called yet, InitDefault is
called") routes `Dial(instance, "")` through the ambient-identity path and
installs under the empty key. The code instead calls `InitFromJson` for
every credential: with an empty credential the JSON parse fails even while
ambient credentials are available, `google.DefaultClient` is never invoked,
`Dial` returns the wrapped initialization error, and nothing is installed
under the empty key. Evaluated here at the failing input. -/
theorem C1_dial_empty_credential_takes_json_path :
    Event.callJWTConfigFromJSON ∈ DialTrace envAmbientOk "" freshState ∧
    Event.callDefaultClient ∉ DialTrace envAmbientOk "" freshState ∧
    envAmbientOk.defaultClient sqlScope = Except.ok 7 ∧
    (Dial envAmbientOk "proj:region:my-db" "" freshState).1 =
      DialOutcome.err (initFailMsg "unexpected end of JSON input") ∧
    lookupSt (Dial envAmbientOk "proj:region:my-db" "" freshState).2 "" = none := by
  refine ⟨?_, ?_, rfl, ?_, ?_⟩ <;> decide

/-- Claim C2: the claim says the put operation `InitClient` allocates the
backing map itself when it is the first registry operation and always
succeeds. `InitClient` is the one path in dial.go with no nil-map check: as
the first registry operation the Go assignment into the nil map panics
(modelled by `none`); only once the map already exists does it install
unconditionally under the given key. -/
theorem C2_initclient_panics_on_fresh_registry :
    InitClient client0 "k1" freshState = none ∧
    (∀ m : GoMap, InitClient client0 "k1" ⟨some m⟩ =
      some ⟨some (goMapInsert m "k1" client0)⟩) :=
  ⟨rfl, fun _ => rfl⟩

/-- Claim C3 fails as stated: in `Init` the Client composite literal,
including the `certs.NewCertSource` collaborator call, is evaluated between
`Lock` and `Unlock`, so the registry lock IS held across the
certificate-source construction. Shown on the trace of `Init` run on a
fresh registry. -/
theorem C3_counterexample :
    lockDisciplineSpec (opTrace (Op.init 7 none none "k1") freshState) = false := by
  decide

/-- Claim C3 (amended): in every operation of the core, each critical
section of the registry lock contains only the lazy map allocation, at most
one single map insert or read, and — in the `Init` path only — the
certificate-source construction, which happens inside the lock; the
identity-provider exchange and the delegated Client dial always happen
outside the lock. -/
theorem C3_lock_discipline_amended (op : Op) (st : DialClientState) :
    lockDisciplineCode (opTrace op st) = true := by
  obtain ⟨mo⟩ := st
  cases op with
  | init auth connset dialer k => cases mo <;> rfl
  | initClient cl k => cases mo <;> rfl
  | initDefault env =>
      show lockDisciplineCode (InitDefaultTrace env ⟨mo⟩) = true
      rw [InitDefaultTrace]
      rcases env.defaultClient sqlScope with e | cl
      · rfl
      · cases mo <;> rfl
  | initFromJson env k =>
      show lockDisciplineCode (InitFromJsonTrace env k ⟨mo⟩) = true
      rw [InitFromJsonTrace]
      rcases env.jwtConfigFromJSON k sqlScope with e | cfg
      · rfl
      · cases mo <;> rfl
  | dial env inst k =>
      show lockDisciplineCode (DialTrace env k ⟨mo⟩) = true
      cases mo with
      | none =>
          rcases hjj : env.jwtConfigFromJSON k sqlScope with e | cfg <;>
            simp [DialTrace, InitFromJson, InitFromJsonTrace, InitTrace, allocState,
              mapOf, goMapLookup, goMapLookup_goMapInsert, hjj, lockDisciplineCode,
              checkCodeSections, Event.isCollab]
      | some m =>
          rcases hl : goMapLookup m k with _ | c
          · rcases hjj : env.jwtConfigFromJSON k sqlScope with e | cfg <;>
              simp [DialTrace, InitFromJson, InitFromJsonTrace, InitTrace, Init,
                allocState, mapOf, goMapLookup_goMapInsert, hl, hjj,
                lockDisciplineCode, checkCodeSections, Event.isCollab]
          · simp [DialTrace, allocState, mapOf, hl, lockDisciplineCode,
              checkCodeSections, Event.isCollab]

/-- Claim C4: cache consistency. Each successful put path installs a Client
under its key — `InitClient` the given Client under the given key, `Init`
its built Client, `InitDefault` under the empty key, `InitFromJson` under
the blob — and once a key is installed, no subsequent operation of the core
(any sequence of Dial/Init/InitClient/InitDefault/InitFromJson) ever makes
its lookup revert to not-found; the entry can only be overwritten. -/
theorem C4_cache_consistency :
    (∀ (cl : Client) (k : String) (st st2 : DialClientState),
        InitClient cl k st = some st2 → lookupSt st2 k = some cl) ∧
    (∀ (auth : HttpClient) (connset : Option ConnSet) (dialer : Option DialerHandle)
        (k : String) (st : DialClientState),
        (lookupSt (Init auth connset dialer k st) k).isSome) ∧
    (∀ (env : Env) (st st2 : DialClientState),
        InitDefault env st = (Except.ok (), st2) → (lookupSt st2 "").isSome) ∧
    (∀ (env : Env) (k : String) (st st2 : DialClientState),
        InitFromJson env k st = (Except.ok (), st2) → (lookupSt st2 k).isSome) ∧
    (∀ (st : DialClientState) (k : String) (ops : List Op),
        (lookupSt st k).isSome → (lookupSt (applyOps ops st) k).isSome) := by
  refine ⟨?_, ?_, ?_, ?_, ?_⟩
  · intro cl k st st2 h
    unfold InitClient at h
    rcases hc : st.c with _ | m <;> rw [hc] at h <;> simp at h
    rw [← h]
    show goMapLookup (goMapInsert m k cl) k = some cl
    simp [goMapLookup_goMapInsert]
  · intro auth connset dialer k st
    rw [lookupSt_Init]
    simp
  · intro env st st2 h
    unfold InitDefault at h
    rcases hd : env.defaultClient sqlScope with e | cl <;> rw [hd] at h <;> simp at h
    rw [← h, lookupSt_Init]
    simp
  · intro env k st st2 h
    exact lookupSt_InitFromJson_ok env k st st2 h
  · intro st k ops h
    induction ops generalizing st with
    | nil => exact h
    | cons op rest ih => exact ih (applyOp op st) (lookupSt_applyOp_isSome op st k h)

/-- Witness for C4 at concrete inputs: "k1" installed by `Init` on a fresh
registry survives a subsequent `InitClient` put under "k2". -/
theorem C4_cache_consistency_witness :
    (lookupSt (applyOps [Op.initClient client0 "k2"]
      (Init 7 none none "k1" freshState)) "k1").isSome :=
  C4_cache_consistency.2.2.2.2 (Init 7 none none "k1" freshState) "k1"
    [Op.initClient client0 "k2"] (by decide)

/-- Claim C5: when the JSON parse of the credential blob fails,
`InitFromJson` returns exactly that error and leaves the registry state
untouched, a lookup of the blob afterwards still misses, and a subsequent
`Dial` with that blob runs the identity exchange again (its trace contains
the `JWTConfigFromJSON` call) instead of replaying a cached failure. -/
theorem C5_no_failure_caching (env : Env) (k : String) (st : DialClientState) (e : Err)
    (hfail : env.jwtConfigFromJSON k sqlScope = Except.error e)
    (habsent : lookupSt st k = none) :
    InitFromJson env k st = (Except.error e, st) ∧
    lookupSt (InitFromJson env k st).2 k = none ∧
    Event.callJWTConfigFromJSON ∈ DialTrace env k st := by
  have h1 : InitFromJson env k st = (Except.error e, st) := by
    unfold InitFromJson
    rw [hfail]
  refine ⟨h1, by rw [h1]; exact habsent, ?_⟩
  have hl : goMapLookup (mapOf (allocState st)) k = none := habsent
  have h1a : InitFromJson env k (allocState st) = (Except.error e, allocState st) := by
    unfold InitFromJson
    rw [hfail]
  rw [DialTrace]
  simp only [hl, h1a, InitFromJsonTrace, hfail]
  simp

/-- Witness for C5 at concrete inputs: a failing blob on a fresh registry. -/
theorem C5_no_failure_caching_witness :
    InitFromJson envAllFail "bad-json" freshState = (Except.error "bad blob", freshState) ∧
    lookupSt (InitFromJson envAllFail "bad-json" freshState).2 "bad-json" = none ∧
    Event.callJWTConfigFromJSON ∈ DialTrace envAllFail "bad-json" freshState :=
  C5_no_failure_caching envAllFail "bad-json" freshState "bad blob" rfl rfl

/-- Claim C6: every error `Dial` returns has one of exactly two shapes:
either the implicit `InitFromJson` step failed and the message is that
parse/exchange error wrapped with the "default proxy initialization failed;
consider calling proxy.Init explicitly" context, or the resolved Client's
own dial failed and its error is propagated to the caller unchanged. -/
theorem C6_error_shapes (env : Env) (inst k : String) (st : DialClientState) (msg : Err)
    (h : (Dial env inst k st).1 = DialOutcome.err msg) :
    (∃ e, env.jwtConfigFromJSON k sqlScope = Except.error e ∧ msg = initFailMsg e) ∨
    (∃ c e, env.clientDial c inst = Except.error e ∧ msg = e) := by
  unfold Dial at h
  rcases hl : goMapLookup (mapOf (allocState st)) k with _ | c <;> simp only [hl] at h
  · rcases hj : InitFromJson env k (allocState st) with ⟨r | u, st2⟩ <;>
      simp only [hj] at h
    · left
      refine ⟨r, ?_, ?_⟩
      · unfold InitFromJson at hj
        rcases hjj : env.jwtConfigFromJSON k sqlScope with e2 | cfg <;>
          rw [hjj] at hj <;> simp at hj
        rw [hj.1]
      · cases h
        rfl
    · rcases hl2 : goMapLookup (mapOf st2) k with _ | c2 <;> simp only [hl2] at h
      · cases h
      · rcases hd : env.clientDial c2 inst with e | conn <;> simp only [hd] at h
        · right
          cases h
          exact ⟨c2, msg, hd, rfl⟩
        · cases h
  · rcases hd : env.clientDial c inst with e | conn <;> simp only [hd] at h
    · right
      cases h
      exact ⟨c, msg, hd, rfl⟩
    · cases h

/-- Witness for C6 at concrete inputs: a failing blob on a fresh registry
makes `Dial` return the wrapped initialization error. -/
theorem C6_error_shapes_witness :
    (∃ e, envAllFail.jwtConfigFromJSON "blob" sqlScope = Except.error e ∧
        initFailMsg "bad blob" = initFailMsg e) ∨
    (∃ c e, envAllFail.clientDial c "inst1" = Except.error e ∧
        initFailMsg "bad blob" = e) :=
  C6_error_shapes envAllFail "inst1" "blob" freshState (initFailMsg "bad blob") rfl

/-- Claim C7: for every call, `Init` installs under the given credential key
a Client whose Port is the fixed constant 3307, whose certificate source is
constructed against the fixed well-known endpoint from the given auth
transport (with the secure flag set), and whose connection set and dialer
are the given ones, passed through unmodified. -/
theorem C7_init_builds_fixed_client (auth : HttpClient) (connset : Option ConnSet)
    (dialer : Option DialerHandle) (k : String) (st : DialClientState) :
    port = 3307 ∧
    lookupSt (Init auth connset dialer k st) k =
      some { Port := port
             Certs := some (CertSource.newCertSource sqlAdminEndpoint auth true)
             Conns := connset
             Dialer := dialer } := by
  refine ⟨rfl, ?_⟩
  rw [lookupSt_Init, if_pos rfl]

/-- Claim C8: when the credential key is already installed (for example by
an explicit `InitClient`), `Dial` performs no identity-provider exchange at
all — its trace has no exchange call — leaves the registry unchanged apart
from the lazy allocation, and delegates directly to the installed Client's
own dial, returning its result. -/
theorem C8_installed_key_skips_exchange (env : Env) (inst k : String)
    (st : DialClientState) (c : Client) (h : lookupSt st k = some c) :
    noIdentityExchange (DialTrace env k st) = true ∧
    (Dial env inst k st).2 = allocState st ∧
    (Dial env inst k st).1 =
      (match env.clientDial c inst with
       | Except.ok conn => DialOutcome.ok conn
       | Except.error e => DialOutcome.err e) := by
  have hl : goMapLookup (mapOf (allocState st)) k = some c := h
  refine ⟨?_, ?_, ?_⟩
  · rw [DialTrace]
    simp only [hl]
    cases hc : st.c <;>
      simp [noIdentityExchange, Event.isIdentityExchange, hc]
  · unfold Dial
    simp only [hl]
    rcases hd : env.clientDial c inst with e | conn <;> simp only [hd]
  · unfold Dial
    simp only [hl]
    rcases hd : env.clientDial c inst with e | conn <;> simp only [hd]

/-- Witness for C8 at concrete inputs: with "k1" installed by `Init`, `Dial`
with credential "k1" skips the exchange and returns the installed Client's
dial result. -/
theorem C8_installed_key_skips_exchange_witness :
    noIdentityExchange (DialTrace envAmbientOk "k1" stWithK1) = true ∧
    (Dial envAmbientOk "inst1" "k1" stWithK1).2 = allocState stWithK1 ∧
    (Dial envAmbientOk "inst1" "k1" stWithK1).1 =
      (match envAmbientOk.clientDial builtK1 "inst1" with
       | Except.ok conn => DialOutcome.ok conn
       | Except.error e => DialOutcome.err e) :=
  C8_installed_key_skips_exchange envAmbientOk "inst1" "k1" stWithK1 builtK1 (by decide)

/-- Claim C9: the registry map's domain is monotonically non-decreasing —
no operation of the core ever deletes a key or shrinks the map — and every
single operation either leaves all lookups unchanged or adds/overwrites
exactly one entry, leaving every other key's lookup unchanged. -/
theorem C9_registry_monotone (op : Op) (st : DialClientState) :
    (∀ q : String, (lookupSt st q).isSome → (lookupSt (applyOp op st) q).isSome) ∧
    ((∀ q : String, lookupSt (applyOp op st) q = lookupSt st q) ∨
      (∃ k0 v, lookupSt (applyOp op st) k0 = some v ∧
        ∀ q : String, q ≠ k0 → lookupSt (applyOp op st) q = lookupSt st q)) := by
  refine ⟨fun q => lookupSt_applyOp_isSome op st q, ?_⟩
  cases op with
  | init auth connset dialer k =>
      right
      obtain ⟨h1, h2⟩ := Init_one_entry auth connset dialer k st
      exact ⟨k, _, h1, h2⟩
  | initClient cl k =>
      rcases hc : st.c with _ | m
      · left
        intro q
        simp [applyOp, InitClient, hc]
      · right
        refine ⟨k, cl, ?_, ?_⟩
        · simp only [applyOp, InitClient, hc]
          show goMapLookup (goMapInsert m k cl) k = some cl
          simp [goMapLookup_goMapInsert]
        · intro q hq
          simp only [applyOp, InitClient, hc]
          show goMapLookup (goMapInsert m k cl) q = lookupSt st q
          rw [goMapLookup_goMapInsert, if_neg (fun hkq => hq hkq.symm)]
          simp [lookupSt, mapOf, hc]
  | initDefault env =>
      simp only [applyOp, InitDefault]
      rcases env.defaultClient sqlScope with e | cl
      · left
        intro q
        rfl
      · right
        obtain ⟨h1, h2⟩ := Init_one_entry cl none none "" st
        exact ⟨"", _, h1, h2⟩
  | initFromJson env k =>
      simp only [applyOp, InitFromJson]
      rcases env.jwtConfigFromJSON k sqlScope with e | cfg
      · left
        intro q
        rfl
      · right
        obtain ⟨h1, h2⟩ := Init_one_entry (env.cfgClient cfg) none none k st
        exact ⟨k, _, h1, h2⟩
  | dial env inst k =>
      rcases Dial_state_shape env inst k st with h | ⟨cfg, hjj, h⟩
      · left
        intro q
        show lookupSt (Dial env inst k st).2 q = lookupSt st q
        rw [h, lookupSt_allocState]
      · right
        obtain ⟨h1, h2⟩ := Init_one_entry (env.cfgClient cfg) none none k (allocState st)
        refine ⟨k, { Port := port
                     Certs := some (CertSource.newCertSource sqlAdminEndpoint (env.cfgClient cfg) true)
                     Conns := none
                     Dialer := none }, ?_, ?_⟩
        · show lookupSt (Dial env inst k st).2 k = _
          rw [h]
          exact h1
        · intro q hq
          show lookupSt (Dial env inst k st).2 q = lookupSt st q
          rw [h, h2 q hq, lookupSt_allocState]

/-- Witness for C9 at a concrete input: an overwriting `InitClient` on a
registry holding "k1" keeps "k1" present. -/
theorem C9_registry_monotone_witness :
    (lookupSt (applyOp (Op.initClient client0 "k2") stWithK1) "k1").isSome :=
  (C9_registry_monotone (Op.initClient client0 "k2") stWithK1).1 "k1" (by decide)

/-- Claim C10: in a sequential `Dial`, a successful implicit `InitFromJson`
installs a Client under exactly the dialled credential key, so the re-lookup
is non-nil and the delegated Client dial never dereferences a nil Client:
`Dial` never reaches the nil-dereference outcome, for any state and
environment. -/
theorem C10_no_nil_client_dereference (env : Env) (inst k : String)
    (st : DialClientState) :
    (Dial env inst k st).1 ≠ DialOutcome.panicNilClient ∧
    (∀ st2, InitFromJson env k st = (Except.ok (), st2) → (lookupSt st2 k).isSome) := by
  constructor
  · unfold Dial
    rcases hl : goMapLookup (mapOf (allocState st)) k with _ | c <;> simp only [hl]
    · rcases hjj : env.jwtConfigFromJSON k sqlScope with e | cfg
      · have herr : InitFromJson env k (allocState st) = (Except.error e, allocState st) := by
          unfold InitFromJson
          rw [hjj]
        simp only [herr]
        simp
      · have hok : InitFromJson env k (allocState st) =
            (Except.ok (), Init (env.cfgClient cfg) none none k (allocState st)) := by
          unfold InitFromJson
          rw [hjj]
        simp only [hok]
        have hsome : (lookupSt (Init (env.cfgClient cfg) none none k (allocState st)) k).isSome := by
          rw [lookupSt_Init, if_pos rfl]
          rfl
        rcases hl2 : goMapLookup (mapOf (Init (env.cfgClient cfg) none none k (allocState st))) k
          with _ | c2 <;> simp only [hl2]
        · rw [show goMapLookup (mapOf (Init (env.cfgClient cfg) none none k (allocState st))) k =
              lookupSt (Init (env.cfgClient cfg) none none k (allocState st)) k from rfl] at hl2
          rw [hl2] at hsome
          cases hsome
        · rcases env.clientDial c2 inst with e | conn <;> simp
    · rcases env.clientDial c inst with e | conn <;> simp
  · intro st2 h
    exact lookupSt_InitFromJson_ok env k st st2 h

/-- Witness for C10 at concrete inputs: a parsing blob on a fresh registry. -/
theorem C10_no_nil_client_dereference_witness :
    (Dial envAmbientOk "inst1" "blob" freshState).1 ≠ DialOutcome.panicNilClient ∧
    (lookupSt (InitFromJson envAmbientOk "blob" freshState).2 "blob").isSome :=
  ⟨(C10_no_nil_client_dereference envAmbientOk "inst1" "blob" freshState).1,
   (C10_no_nil_client_dereference envAmbientOk "inst1" "blob" freshState).2
     (InitFromJson envAmbientOk "blob" freshState).2 rfl⟩

end CloudSQLProxy
